import Mathlib

/-!
Verification of the pipeline-notification Lambda
(`src/functions/pipeline-lambda/src/main.py` and `config.py`).

The handler reads two environment variables, validates the incoming
pipeline-state-change event, builds a Discord webhook payload and issues a
single POST.  We embed the event shape, the environment, the payload
structure and the handler as pure Lean functions.  The HTTP layer is
modelled by passing the response status code of the single outbound POST as
an argument; the `requests` method `Response.raise_for_status` raises
`HTTPError` exactly when the status code is in [400, 600).  The outcome of
the handler is a
pair: the returned/raised result, together with the payload of the POST if
one was attempted (`none` means no network call occurred).
-/

namespace PipelineLambda

/-- One `execution-trigger` sub-record of the `detail` of the event.  Every
key is optional; a present key may still hold the empty string, which the
truthiness of Python treats differently from an absent key. -/
structure ExecutionTrigger where
  authorDisplayName : Option String
  authorId : Option String
  commitId : Option String
  commitMessage : Option String
  deriving DecidableEq, Repr

/-- The `detail` record of the event. -/
structure Detail where
  state : Option String
  executionTrigger : Option ExecutionTrigger
  deriving DecidableEq, Repr

/-- The incoming event: optional top-level `time` and optional `detail`. -/
structure Event where
  time : Option String
  detail : Option Detail
  deriving DecidableEq, Repr

/-- The ambient environment: `os.getenv` returns `None` for an absent
variable, hence `Option String`. -/
structure Env where
  DISCORD_WEBHOOKS_URL : Option String
  PIPELINE_NAME : Option String
  deriving DecidableEq, Repr

/-- Embedding of the `WebhookConfig` dataclass of `config.py`. -/
structure WebhookConfig where
  url : String
  pipeline_name : String
  deriving DecidableEq, Repr

/-- Embedding of `WebhookConfig.get_pipeline_url` of `config.py`: the fixed
us-east-1 console URL template with the pipeline name substituted. -/
def WebhookConfig.get_pipeline_url (cfg : WebhookConfig) : String :=
  "https://us-east-1.console.aws.amazon.com/codesuite/codepipeline/pipelines/"
    ++ cfg.pipeline_name ++ "/view?region=us-east-1"

/-- One entry of the `fields` list of the embed. -/
structure EmbedField where
  name : String
  value : String
  inline : Bool
  deriving DecidableEq, Repr

/-- The single embed of the payload. -/
structure Embed where
  title : String
  description : String
  color : Nat
  fields : List EmbedField
  timestamp : Option String
  deriving DecidableEq, Repr

/-- The webhook payload built by the handler. -/
structure Payload where
  username : String
  content : String
  embeds : List Embed
  deriving DecidableEq, Repr

/-- What the handler invocation produces: a structured error dict, the
success dict, or a propagated `requests.exceptions.HTTPError`. -/
inductive HandlerResult where
  | errorResult (message : String)
  | sent
  | httpError (statusCode : Nat)
  deriving DecidableEq, Repr

/-- The empty dict default of `event.get("detail", \x7b\x7d)`. -/
def Detail.empty : Detail := ⟨none, none⟩

/-- The empty dict default of `detail.get("execution-trigger", \x7b\x7d)`. -/
def ExecutionTrigger.empty : ExecutionTrigger := ⟨none, none, none, none⟩

/-- Embedding of the `STATE_COLORS` dict of `main.py` as a partial lookup. -/
def STATE_COLORS (s : String) : Option Nat :=
  if s = "SUCCEEDED" then some 0x2ECC71
  else if s = "FAILED" then some 0xE74C3C
  else if s = "STARTED" then some 0x3498DB
  else if s = "STOPPING" then some 0xF39C12
  else none

/-- Python truthiness of an optional string: `None` and `""` are falsy. -/
def truthy : Option String → Bool
  | none => false
  | some s => !(s = "")

/-- Embedding of the Python expression `a or b` where `a` is an optional
string and `b` a string: `None` and `""` both fall through to `b`. -/
def getOr : Option String → String → String
  | none, b => b
  | some s, b => if s = "" then b else s

/-- Embedding of `requests.Response.raise_for_status`: it raises `HTTPError`
exactly for client-error (4xx) and server-error (5xx) status codes. -/
def raise_for_status (status : Nat) : Bool :=
  decide (400 ≤ status ∧ status < 600)

/-- Embedding of `handler` from `main.py`.  `respStatus` is the status code
the single outbound POST would receive.  Returns the invocation result together with
the payload of the POST if one was made (`none`: no network call). -/
def handler (env : Env) (event : Event) (respStatus : Nat) :
    HandlerResult × Option Payload :=
  if truthy env.DISCORD_WEBHOOKS_URL = false ∨ truthy env.PIPELINE_NAME = false then
    (HandlerResult.errorResult "Missing environment variables.", none)
  else
    let webhook_cfg : WebhookConfig :=
      ⟨env.DISCORD_WEBHOOKS_URL.getD "", env.PIPELINE_NAME.getD ""⟩
    let detail := event.detail.getD Detail.empty
    let state := detail.state.getD ""
    if state = "" then
      (HandlerResult.errorResult "Missing status in event body.", none)
    else
      let trigger := detail.executionTrigger.getD ExecutionTrigger.empty
      let author := getOr trigger.authorDisplayName (trigger.authorId.getD "Unknown")
      let commit_id := trigger.commitId.getD "N/A"
      let commit_message := trigger.commitMessage.getD "N/A"
      let pipeline_url := webhook_cfg.get_pipeline_url
      let payload : Payload :=
        { username := "AWS Pipelines"
          content := "Pipeline **" ++ webhook_cfg.pipeline_name
            ++ "** status changed to **" ++ state ++ "**"
          embeds := [
            { title := webhook_cfg.pipeline_name
              description := "State: **" ++ state ++ "**"
              color := (STATE_COLORS state).getD 0x95A5A6
              fields := [
                ⟨"Author", author, true⟩,
                ⟨"Commit ID", commit_id, true⟩,
                ⟨"Commit Message", commit_message, false⟩,
                ⟨"Pipeline Link", "[View Pipeline](" ++ pipeline_url ++ ")", false⟩]
              timestamp := event.time }] }
      if raise_for_status respStatus then
        (HandlerResult.httpError respStatus, some payload)
      else
        (HandlerResult.sent, some payload)

/-- The state string the handler extracts: `event.detail.state` with absent
`detail` or absent `state` defaulting to `""`. -/
def eventState (event : Event) : String :=
  (event.detail.getD Detail.empty).state.getD ""

/-- The trigger record the handler extracts, absent keys defaulting to the
empty dict. -/
def eventTrigger (event : Event) : ExecutionTrigger :=
  (event.detail.getD Detail.empty).executionTrigger.getD ExecutionTrigger.empty

/-- The color of the first embed of a payload, if any. -/
def embedColor (p : Payload) : Option Nat :=
  p.embeds.head?.map Embed.color

/-- The timestamp of the first embed of a payload, if any. -/
def embedTimestamp (p : Payload) : Option (Option String) :=
  p.embeds.head?.map Embed.timestamp

/-- The value of the first field named `n` in the first embed. -/
def fieldValue (p : Payload) (n : String) : Option String :=
  p.embeds.head?.bind fun e =>
    (e.fields.find? fun f => f.name == n).map EmbedField.value

/-- The payload the handler builds, as a function of the configured pipeline
name, the extracted state, the extracted trigger and the event time. -/
def builtPayload (pn state : String) (t : ExecutionTrigger) (time : Option String) :
    Payload :=
  { username := "AWS Pipelines"
    content := "Pipeline **" ++ pn ++ "** status changed to **" ++ state ++ "**"
    embeds := [
      { title := pn
        description := "State: **" ++ state ++ "**"
        color := (STATE_COLORS state).getD 0x95A5A6
        fields := [
          ⟨"Author", getOr t.authorDisplayName (t.authorId.getD "Unknown"), true⟩,
          ⟨"Commit ID", t.commitId.getD "N/A", true⟩,
          ⟨"Commit Message", t.commitMessage.getD "N/A", false⟩,
          ⟨"Pipeline Link",
            "[View Pipeline]("
              ++ ("https://us-east-1.console.aws.amazon.com/codesuite/codepipeline/pipelines/"
                ++ pn ++ "/view?region=us-east-1") ++ ")", false⟩]
        timestamp := time }] }

/-- Modelled from the spec: the color table as the specification states it,
an exact-string case-sensitive lookup with a neutral gray default. -/
def specColor (s : String) : Nat :=
  if s = "SUCCEEDED" then 0x2ECC71
  else if s = "FAILED" then 0xE74C3C
  else if s = "STARTED" then 0x3498DB
  else if s = "STOPPING" then 0xF39C12
  else 0x95A5A6

theorem handler_cases (env : Env) (event : Event) (rs : Nat) :
    handler env event rs =
      if truthy env.DISCORD_WEBHOOKS_URL = false ∨ truthy env.PIPELINE_NAME = false then
        (HandlerResult.errorResult "Missing environment variables.", none)
      else if eventState event = "" then
        (HandlerResult.errorResult "Missing status in event body.", none)
      else if raise_for_status rs then
        (HandlerResult.httpError rs,
          some (builtPayload (env.PIPELINE_NAME.getD "") (eventState event)
            (eventTrigger event) event.time))
      else
        (HandlerResult.sent,
          some (builtPayload (env.PIPELINE_NAME.getD "") (eventState event)
            (eventTrigger event) event.time)) := by
  rfl

theorem handler_payload_eq (env : Env) (event : Event) (rs : Nat) (p : Payload)
    (hp : (handler env event rs).2 = some p) :
    p = builtPayload (env.PIPELINE_NAME.getD "") (eventState event)
      (eventTrigger event) event.time := by
  rw [handler_cases] at hp
  split at hp
  · simp at hp
  · split at hp
    · simp at hp
    · split at hp <;> exact (Option.some.inj hp).symm

theorem STATE_COLORS_getD (s : String) :
    (STATE_COLORS s).getD 0x95A5A6 = specColor s := by
  unfold STATE_COLORS specColor
  split_ifs <;> rfl

theorem handler_posts (env : Env) (event : Event) (rs : Nat) (p : Payload)
    (hp : (handler env event rs).2 = some p) :
    ¬(truthy env.DISCORD_WEBHOOKS_URL = false ∨ truthy env.PIPELINE_NAME = false) ∧
    eventState event ≠ "" := by
  rw [handler_cases] at hp
  split at hp
  · simp at hp
  · split at hp
    · simp at hp
    · rename_i h1 h2
      exact ⟨h1, h2⟩

theorem builtPayload_author (pn s : String) (t : ExecutionTrigger)
    (time : Option String) :
    fieldValue (builtPayload pn s t time) "Author" =
      some (getOr t.authorDisplayName (t.authorId.getD "Unknown")) := rfl

theorem builtPayload_commit_id (pn s : String) (t : ExecutionTrigger)
    (time : Option String) :
    fieldValue (builtPayload pn s t time) "Commit ID" =
      some (t.commitId.getD "N/A") := rfl

theorem builtPayload_commit_message (pn s : String) (t : ExecutionTrigger)
    (time : Option String) :
    fieldValue (builtPayload pn s t time) "Commit Message" =
      some (t.commitMessage.getD "N/A") := rfl

theorem builtPayload_link (pn s : String) (t : ExecutionTrigger)
    (time : Option String) :
    fieldValue (builtPayload pn s t time) "Pipeline Link" =
      some ("[View Pipeline]("
        ++ ("https://us-east-1.console.aws.amazon.com/codesuite/codepipeline/pipelines/"
          ++ pn ++ "/view?region=us-east-1") ++ ")") := rfl

theorem builtPayload_color (pn s : String) (t : ExecutionTrigger)
    (time : Option String) :
    embedColor (builtPayload pn s t time) =
      some ((STATE_COLORS s).getD 0x95A5A6) := rfl

theorem builtPayload_timestamp (pn s : String) (t : ExecutionTrigger)
    (time : Option String) :
    embedTimestamp (builtPayload pn s t time) = some time := rfl

/-- A valid configuration used as concrete test input. -/
def env0 : Env := ⟨some "https://hooks.example/x", some "build-pipeline"⟩

/-- A minimal valid event: state `SUCCEEDED`, no trigger, no time. -/
def ev0 : Event := ⟨none, some ⟨some "SUCCEEDED", none⟩⟩

/-- The payload the handler builds for `env0` and `ev0`. -/
def p0 : Payload := builtPayload "build-pipeline" "SUCCEEDED" ExecutionTrigger.empty none

/-- An event with no detail at all (hence no state). -/
def evNoState : Event := ⟨none, none⟩

/-- An environment with both variables absent. -/
def envNone : Env := ⟨none, none⟩

/-- An environment missing the webhook URL. -/
def envNoUrl : Env := ⟨none, some "build-pipeline"⟩

/-- The end-to-end example event of the specification. -/
def evC8 : Event :=
  ⟨some "2024-01-01T00:00:00Z",
   some ⟨some "FAILED", some ⟨none, some "bob", some "abc123", none⟩⟩⟩

/-- The payload the handler builds for `env0` and `evC8`. -/
def pC8 : Payload :=
  builtPayload "build-pipeline" "FAILED" ⟨none, some "bob", some "abc123", none⟩
    (some "2024-01-01T00:00:00Z")

/-- An event whose trigger has an empty display name and author-id `bob`. -/
def evC5 : Event :=
  ⟨none, some ⟨some "SUCCEEDED", some ⟨some "", some "bob", none, none⟩⟩⟩

/-- An event whose trigger has no display name and an empty author-id. -/
def evC10 : Event :=
  ⟨none, some ⟨some "STARTED", some ⟨none, some "", none, none⟩⟩⟩

/-- The payload the handler builds for `env0` and `evC10`. -/
def pC10 : Payload :=
  builtPayload "build-pipeline" "STARTED" ⟨none, some "", none, none⟩ none

/-- C1: whenever the handler builds a payload, the color of its first embed
is exactly the fixed table value for the extracted state — SUCCEEDED green
0x2ECC71, FAILED red 0xE74C3C, STARTED blue 0x3498DB, STOPPING orange
0xF39C12 — and the neutral gray 0x95A5A6 for every other state string, the
lookup being exact-string and case-sensitive with no normalization. -/
theorem C1_state_color (env : Env) (event : Event) (rs : Nat) (p : Payload)
    (hp : (handler env event rs).2 = some p) :
    embedColor p = some (specColor (eventState event)) := by
  rw [handler_payload_eq env event rs p hp, builtPayload_color,
    STATE_COLORS_getD]

/-- Witness for C1 at the concrete input `env0`, `ev0`, status 200. -/
theorem C1_state_color_witness :
    (handler env0 ev0 200).2 = some p0 ∧
    embedColor p0 = some (specColor (eventState ev0)) :=
  ⟨rfl, C1_state_color env0 ev0 200 p0 rfl⟩

/-- C2 counterexample: 304 is not a 2xx status, yet the handler returns the
success dict rather than raising, because `raise_for_status` only raises
for status codes in [400, 600). -/
theorem C2_counterexample :
    ¬(200 ≤ 304 ∧ 304 < 300) ∧
    (handler env0 ev0 304).1 = HandlerResult.sent :=
  ⟨by decide, rfl⟩

/-- C2 (amended): whenever the handler attempts the POST, a 4xx or 5xx
response status makes it raise the HTTP error to its caller, while every
other status (all 2xx included) makes it return the success dict; in no
case does it return a structured error dict. -/
theorem C2_delivery (env : Env) (event : Event) (rs : Nat) (p : Payload)
    (hp : (handler env event rs).2 = some p) :
    (400 ≤ rs ∧ rs < 600 → (handler env event rs).1 = HandlerResult.httpError rs) ∧
    (¬(400 ≤ rs ∧ rs < 600) → (handler env event rs).1 = HandlerResult.sent) ∧
    ∀ m, (handler env event rs).1 ≠ HandlerResult.errorResult m := by
  obtain ⟨h1, h2⟩ := handler_posts env event rs p hp
  rw [handler_cases, if_neg h1, if_neg h2]
  by_cases hr : 400 ≤ rs ∧ rs < 600
  · simp [raise_for_status, hr]
  · simp [raise_for_status, hr]

/-- Witness for C2 at the concrete input `env0`, `ev0`, status 500. -/
theorem C2_delivery_witness :
    (handler env0 ev0 500).1 = HandlerResult.httpError 500 :=
  (C2_delivery env0 ev0 500 p0 rfl).1 (by decide)

/-- C3: with both configuration values present and non-empty, an event whose
extracted state is absent or empty makes the handler return the
validation-error dict and perform no network call. -/
theorem C3_missing_state (env : Env) (event : Event) (rs : Nat)
    (hu : truthy env.DISCORD_WEBHOOKS_URL = true)
    (hn : truthy env.PIPELINE_NAME = true)
    (hs : eventState event = "") :
    handler env event rs =
      (HandlerResult.errorResult "Missing status in event body.", none) := by
  rw [handler_cases, if_neg (by simp [hu, hn]), if_pos hs]

/-- Witness for C3 at the concrete input `env0`, `evNoState`. -/
theorem C3_missing_state_witness :
    truthy env0.DISCORD_WEBHOOKS_URL = true ∧
    truthy env0.PIPELINE_NAME = true ∧
    eventState evNoState = "" ∧
    handler env0 evNoState 200 =
      (HandlerResult.errorResult "Missing status in event body.", none) :=
  ⟨rfl, rfl, rfl, C3_missing_state env0 evNoState 200 rfl rfl rfl⟩

/-- C4: whenever either configuration value is absent or empty, the handler
returns the configuration-error dict and performs no network call, for
every event. -/
theorem C4_missing_config (env : Env) (event : Event) (rs : Nat)
    (h : truthy env.DISCORD_WEBHOOKS_URL = false ∨
      truthy env.PIPELINE_NAME = false) :
    handler env event rs =
      (HandlerResult.errorResult "Missing environment variables.", none) := by
  rw [handler_cases, if_pos h]

/-- Witness for C4 at the concrete input `envNoUrl`, `ev0`. -/
theorem C4_missing_config_witness :
    truthy envNoUrl.DISCORD_WEBHOOKS_URL = false ∧
    handler envNoUrl ev0 200 =
      (HandlerResult.errorResult "Missing environment variables.", none) :=
  ⟨rfl, C4_missing_config envNoUrl ev0 200 (Or.inl rfl)⟩

/-- C5 counterexample: the trigger of `evC5` has `author-display-name`
present (the empty string) and `author-id` equal to `bob`; the claim as
stated makes the Author field the present display name `""`, but the
handler produces `bob`. -/
theorem C5_counterexample :
    (eventTrigger evC5).authorDisplayName = some "" ∧
    ((handler env0 evC5 200).2.bind fun p => fieldValue p "Author") =
      some "bob" ∧
    ("bob" : String) ≠ "" :=
  ⟨rfl, rfl, by decide⟩

/-- C5 (amended): whenever the handler builds a payload, the Author field
is the display name when that key holds a non-empty string; when the
display name is absent or empty, it is the author-id value when that key is
present (even if empty), and `Unknown` when the author-id key is absent;
the Commit ID and Commit Message fields default to `N/A` when their keys
are absent and otherwise carry the given values. -/
theorem C5_author_commit (env : Env) (event : Event) (rs : Nat) (p : Payload)
    (hp : (handler env event rs).2 = some p) :
    (∀ s, (eventTrigger event).authorDisplayName = some s → s ≠ "" →
      fieldValue p "Author" = some s) ∧
    ((eventTrigger event).authorDisplayName = none ∨
        (eventTrigger event).authorDisplayName = some "" →
      ∀ a, (eventTrigger event).authorId = some a →
        fieldValue p "Author" = some a) ∧
    ((eventTrigger event).authorDisplayName = none ∨
        (eventTrigger event).authorDisplayName = some "" →
      (eventTrigger event).authorId = none →
        fieldValue p "Author" = some "Unknown") ∧
    ((eventTrigger event).commitId = none →
      fieldValue p "Commit ID" = some "N/A") ∧
    (∀ c, (eventTrigger event).commitId = some c →
      fieldValue p "Commit ID" = some c) ∧
    ((eventTrigger event).commitMessage = none →
      fieldValue p "Commit Message" = some "N/A") ∧
    (∀ c, (eventTrigger event).commitMessage = some c →
      fieldValue p "Commit Message" = some c) := by
  rw [handler_payload_eq env event rs p hp]
  refine ⟨?_, ?_, ?_, ?_, ?_, ?_, ?_⟩
  · intro s hds hs
    rw [builtPayload_author, hds]
    simp [getOr, hs]
  · intro hd a ha
    rw [builtPayload_author, ha]
    rcases hd with hd | hd <;> rw [hd] <;> simp [getOr]
  · intro hd ha
    rw [builtPayload_author, ha]
    rcases hd with hd | hd <;> rw [hd] <;> simp [getOr]
  · intro hc
    rw [builtPayload_commit_id, hc]
    rfl
  · intro c hc
    rw [builtPayload_commit_id, hc]
    rfl
  · intro hc
    rw [builtPayload_commit_message, hc]
    rfl
  · intro c hc
    rw [builtPayload_commit_message, hc]
    rfl

/-- Witness for the amended C5 at the concrete input `env0`, `evC8`: the
display name is absent and the author-id is `bob`, so Author is `bob`. -/
theorem C5_author_commit_witness :
    (handler env0 evC8 200).2 = some pC8 ∧
    fieldValue pC8 "Author" = some "bob" :=
  ⟨rfl, (C5_author_commit env0 evC8 200 pC8 rfl).2.1 (Or.inl rfl) "bob" rfl⟩

/-- C6: whenever the handler builds a payload with configured pipeline name
`pn`, the Pipeline Link field is the markdown hyperlink `[View Pipeline](u)`
where `u` is the fixed us-east-1 console URL template with `pn`
substituted, independent of the event contents. -/
theorem C6_pipeline_link (env : Env) (event : Event) (rs : Nat) (p : Payload)
    (pn : String) (hc : env.PIPELINE_NAME = some pn)
    (hp : (handler env event rs).2 = some p) :
    fieldValue p "Pipeline Link" =
      some ("[View Pipeline]("
        ++ ("https://us-east-1.console.aws.amazon.com/codesuite/codepipeline/pipelines/"
          ++ pn ++ "/view?region=us-east-1") ++ ")") := by
  rw [handler_payload_eq env event rs p hp, builtPayload_link, hc]
  rfl

/-- Witness for C6 at the concrete input `env0`, `ev0`. -/
theorem C6_pipeline_link_witness :
    (handler env0 ev0 200).2 = some p0 ∧
    fieldValue p0 "Pipeline Link" =
      some ("[View Pipeline]("
        ++ ("https://us-east-1.console.aws.amazon.com/codesuite/codepipeline/pipelines/"
          ++ "build-pipeline" ++ "/view?region=us-east-1") ++ ")") :=
  ⟨rfl, C6_pipeline_link env0 ev0 200 p0 "build-pipeline" rfl rfl⟩

/-- C7: whenever the handler builds a payload, the timestamp of its embed
is the top-level `time` of the event, unchanged; when `time` is absent the
timestamp is null. -/
theorem C7_timestamp (env : Env) (event : Event) (rs : Nat) (p : Payload)
    (hp : (handler env event rs).2 = some p) :
    embedTimestamp p = some event.time := by
  rw [handler_payload_eq env event rs p hp, builtPayload_timestamp]

/-- Witness for C7 at the concrete input `env0`, `evC8`. -/
theorem C7_timestamp_witness :
    (handler env0 evC8 200).2 = some pC8 ∧
    embedTimestamp pC8 = some (some "2024-01-01T00:00:00Z") :=
  ⟨rfl, C7_timestamp env0 evC8 200 pC8 rfl⟩

/-- C8: the end-to-end example — event `evC8` with configuration `env0` and
a 200 response yields the success dict and a payload with the red color
0xE74C3C, Author `bob`, Commit ID `abc123`, Commit Message `N/A` and the
Pipeline Link built from `build-pipeline`. -/
theorem C8_end_to_end :
    (handler env0 evC8 200).1 = HandlerResult.sent ∧
    (handler env0 evC8 200).2 = some pC8 ∧
    embedColor pC8 = some 0xE74C3C ∧
    fieldValue pC8 "Author" = some "bob" ∧
    fieldValue pC8 "Commit ID" = some "abc123" ∧
    fieldValue pC8 "Commit Message" = some "N/A" ∧
    fieldValue pC8 "Pipeline Link" =
      some ("[View Pipeline]("
        ++ ("https://us-east-1.console.aws.amazon.com/codesuite/codepipeline/pipelines/"
          ++ "build-pipeline" ++ "/view?region=us-east-1") ++ ")") :=
  ⟨rfl, rfl, rfl, rfl, rfl, rfl, rfl⟩

/-- C9: the configuration check precedes event validation — when a
configuration value is missing or empty, the handler returns the
configuration-error dict even for events whose extracted state is also
absent or empty. -/
theorem C9_config_precedence (env : Env) (event : Event) (rs : Nat)
    (h : truthy env.DISCORD_WEBHOOKS_URL = false ∨
      truthy env.PIPELINE_NAME = false)
    (hs : eventState event = "") :
    handler env event rs =
      (HandlerResult.errorResult "Missing environment variables.", none) := by
  rw [handler_cases, if_pos h]

/-- Witness for C9 at the concrete input `envNone`, `evNoState`. -/
theorem C9_config_precedence_witness :
    eventState evNoState = "" ∧
    handler envNone evNoState 200 =
      (HandlerResult.errorResult "Missing environment variables.", none) :=
  ⟨rfl, C9_config_precedence envNone evNoState 200 (Or.inl rfl) rfl⟩

/-- C10: empty strings are treated asymmetrically in the author fallback —
a present-but-empty display name falls through to the author-id lookup
(with its `Unknown` default for an absent key), while a present-but-empty
author-id under an absent display name yields the empty string, not
`Unknown`. -/
theorem C10_author_empty (env : Env) (event : Event) (rs : Nat) (p : Payload)
    (hp : (handler env event rs).2 = some p) :
    ((eventTrigger event).authorDisplayName = some "" →
      fieldValue p "Author" =
        some ((eventTrigger event).authorId.getD "Unknown")) ∧
    ((eventTrigger event).authorDisplayName = none →
      (eventTrigger event).authorId = some "" →
      fieldValue p "Author" = some "") := by
  rw [handler_payload_eq env event rs p hp]
  constructor
  · intro hd
    rw [builtPayload_author, hd]
    simp [getOr]
  · intro hd ha
    rw [builtPayload_author, hd, ha]
    simp [getOr]

/-- Witness for C10 at the concrete input `env0`, `evC10`: display name
absent, author-id equal to the empty string, Author field empty. -/
theorem C10_author_empty_witness :
    (handler env0 evC10 200).2 = some pC10 ∧
    fieldValue pC10 "Author" = some "" :=
  ⟨rfl, (C10_author_empty env0 evC10 200 pC10 rfl).2 rfl rfl⟩

end PipelineLambda
